import Mathlib

/-!
Verification development for the water-quality prediction dashboard
(`app.py`, `src/telegram_bot.py`, `src/chatbot_llm.py`).

The Python code is shallowly embedded: pure computations become Lean
functions, environment interactions (HTTP responses, file contents,
exceptions raised by the transport) become explicit parameters, and the
`json` library's `dump`/`load` pair is modelled as the identity on a JSON
AST (a guarantee of that external library, not of this repository).
Numeric feature values are modelled as rationals; Python's `"%.1f"`
formatting is modelled by decimal rounding half to even, which agrees with
CPython on the values this dashboard produces.
-/

/-- JSON values, as produced by `json.dump` / consumed by `json.load`.
Only integer numerals occur in this repository (Telegram chat ids). -/
inductive Json where
  | null
  | bool (b : Bool)
  | num (n : Int)
  | str (s : String)
  | arr (xs : List Json)
  | obj (fields : List (String × Json))

/-- The pairing record written by `start_command` in `telegram_bot.py`:
`{"chat_id": ..., "name": user.first_name, "username": user.username}`,
where `username` may be `None`. -/
structure PairingRecord where
  chat_id : Int
  name : String
  username : Option String
deriving DecidableEq

/-- State of the shared pairing file `telegram_connection.json`:
never written (open raises `FileNotFoundError`), written with bytes that
`json.load` rejects, or holding a parsed JSON value. -/
inductive PFile where
  | absent
  | malformed
  | holds (j : Json)

/-- Serialisation of `connection_data` performed by `json.dump` in
`start_command` (telegram_bot.py lines 49-58). -/
def recordToJson (r : PairingRecord) : Json :=
  .obj [("chat_id", .num r.chat_id),
        ("name", .str r.name),
        ("username", match r.username with
                     | some u => .str u
                     | none => .null)]

/-- Python dictionary lookup `data[k]` on a loaded JSON value: `none`
models the `KeyError` (key missing) or `TypeError` (not a dict) that such
a subscript raises. -/
def lookupField (j : Json) (k : String) : Option Json :=
  match j with
  | .obj fs => (fs.find? (fun p => p.1 = k)).map (fun p => p.2)
  | _ => none

/-- The structural-equality reading of the loaded JSON back as a
`PairingRecord`, used to state the put/get round-trip. -/
def jsonToRecord (j : Json) : Option PairingRecord :=
  match lookupField j "chat_id", lookupField j "name", lookupField j "username" with
  | some (.num cid), some (.str nm), some (.str u) => some ⟨cid, nm, some u⟩
  | some (.num cid), some (.str nm), some .null => some ⟨cid, nm, none⟩
  | _, _, _ => none

/-- Outcome of the `Sincronizar con Bot` button handler in `app.py`
(lines 200-210): session updated with `chat_id`/`name`, the
"not paired" warning, or an exception propagating out of the handler
(only `FileNotFoundError` is caught there). -/
inductive SyncOutcome where
  | paired (chatId : Json) (name : Json)
  | notPaired
  | raised (err : String)

/-- The dispatcher-side read of the pairing file: `app.py` lines 200-210.
`open` on an absent file raises `FileNotFoundError`, which the handler
catches and turns into the warning `Primero ve a Telegram y usa /start`;
`json.load` on malformed bytes raises `JSONDecodeError`, which is NOT
caught; the subscripts `data["chat_id"]` / `data["name"]` raise
`KeyError`/`TypeError` on a value of the wrong shape, also uncaught. -/
def syncHandler (f : PFile) : SyncOutcome :=
  match f with
  | .absent => .notPaired
  | .malformed => .raised "json.decoder.JSONDecodeError"
  | .holds j =>
    match lookupField j "chat_id" with
    | none => .raised "KeyError"
    | some cid =>
      match lookupField j "name" with
      | none => .raised "KeyError"
      | some nm => .paired cid nm

/-- Telegram user as seen by `start_command` (`update.effective_user`). -/
structure TgUser where
  first_name : String
  username : Option String

/-- Observable actions of the `/start` handler, in program order: the
`json.dump` file write, a `print` log line, and the
`context.bot.send_message` acknowledgment attempt. -/
inductive BotEvent where
  | fileWrite (j : Json)
  | logLine (s : String)
  | ackSend (chatId : Int) (text : String)

/-- Confirmation text sent back by `start_command`. -/
def ackText (name : String) : String :=
  "👋 ¡Hola " ++ name ++ "!\n\nTe he registrado correctamente.\nAhora ve al Dashboard y presiona \x27Sincronizar\x27 para recibir las alertas aquí."

/-- Success log line printed after the file write. -/
def connectedLog (name : String) (chatId : Int) : String :=
  "✅ Nuevo usuario conectado: " ++ name ++ " (ID: " ++ toString chatId ++ ")"

/-- Error log line printed by the handler's single `except` block (it
covers both the write and the acknowledgment, so even an ack failure is
logged with this text). -/
def errorLog (e : String) : String :=
  "Error escribiendo archivo: " ++ e

/-- `start_command` (telegram_bot.py lines 44-67). The whole body sits in
one `try`/`except Exception` whose handler only prints, so the function
always returns normally; `writeResult` / `sendResult` are the outcomes of
the two environment calls (`.error e` models a raised exception with
message `e`). Returns the new file state and the ordered event trace. -/
def startCommand (user : TgUser) (chatId : Int)
    (writeResult : Except String Unit) (sendResult : Except String Unit)
    (f : PFile) : PFile × List BotEvent :=
  let rj := recordToJson ⟨chatId, user.first_name, user.username⟩
  match writeResult with
  | .error e => (f, [.logLine (errorLog e)])
  | .ok _ =>
    let f' := PFile.holds rj
    let evs := [BotEvent.fileWrite rj,
                .logLine (connectedLog user.first_name chatId),
                .ackSend chatId (ackText user.first_name)]
    match sendResult with
    | .ok _ => (f', evs)
    | .error e => (f', evs ++ [.logLine (errorLog e)])

/-- Outcome of one `requests.post` call: an HTTP response with status and
body text, or a raised exception carrying its message (`str(e)`). -/
inductive PostOutcome where
  | ok (status : Nat) (body : String)
  | exc (msg : String)

/-- Python truthiness test `if not TOKEN:` on `os.getenv` output:
true when the variable is unset or the empty string. -/
def tokenFalsy : Option String → Bool
  | none => true
  | some s => s = ""

/-- `send_telegram_alert` (telegram_bot.py lines 19-39). The single
`requests.post` is represented by `outcome`; the returned `Nat` counts
how many post calls were made. The body's `try`/`except Exception`
catches every raised exception, so the function always returns a pair. -/
def send_telegram_alert (token : Option String) (message : String)
    (chat_id : Int) (outcome : PostOutcome) : (Bool × String) × Nat :=
  if tokenFalsy token then
    ((false, "No hay TOKEN en .env"), 0)
  else
    match outcome with
    | .ok status body =>
      if status = 200 then ((true, "Enviado"), 1)
      else ((false, "Error API: " ++ body), 1)
    | .exc m => ((false, m), 1)

/-- Rounding half to even, the rule CPython applies when formatting with
`"%.1f"` (on the values this dashboard produces the binary-float detour
does not change the result). -/
def roundHalfEven (q : ℚ) : ℤ :=
  let n := ⌊q⌋
  let frac := q - n
  if frac < 1 / 2 then n
  else if 1 / 2 < frac then n + 1
  else if n % 2 = 0 then n else n + 1

/-- Python `f"{x:.1f}"`: one digit after the decimal point. -/
def fmt1 (q : ℚ) : String :=
  let n := roundHalfEven (q * 10)
  let sign := if n < 0 then "-" else ""
  sign ++ toString (n.natAbs / 10) ++ "." ++ toString (n.natAbs % 10)

/-- One row of slider inputs (`user_input_features` in `app.py`). -/
structure Sample where
  ph : ℚ
  hardness : ℚ
  solids : ℚ
  chloramines : ℚ
  sulfate : ℚ
  conductivity : ℚ
  organic_carbon : ℚ
  trihalomethanes : ℚ
  turbidity : ℚ
deriving DecidableEq

/-- A sample with the given pH and every other feature at its slider
default value from `user_input_features`. -/
def mkSample (ph : ℚ) : Sample :=
  ⟨ph, 196, 22000, 7.1, 333, 420, 14.5, 66, 3.9⟩

/-- Result of the alert block in `app.py` (`trigger`, `reasons`). -/
structure AlertEvent where
  triggered : Bool
  reasons : List String
deriving DecidableEq

/-- Reason appended by the model rule (`Criterio IA`, app.py line 280):
`f"IA detectó riesgo (Confianza: {confidence:.1f}%)"`. -/
def iaReason (confidence : ℚ) : String :=
  "IA detectó riesgo (Confianza: " ++ fmt1 confidence ++ "%)"

/-- Reason appended by the range rule (`Criterio Normativo`, app.py line
286): `f"pH fuera de norma ({ph_val:.1f})"`. -/
def phReason (ph : ℚ) : String :=
  "pH fuera de norma (" ++ fmt1 ph ++ ")"

/-- The alert evaluation block of `app.py` (lines 271-286).
`prediction` is the model's class label (0 = No Potable), `probaPred` is
`proba[prediction]`; the block computes `confidence = proba[prediction] *
100`, starts from `trigger = False, reasons = []`, and applies the model
rule then the pH range rule, each setting `trigger` and appending one
reason. -/
def evaluateAlert (prediction : Nat) (probaPred : ℚ) (s : Sample) : AlertEvent :=
  let confidence : ℚ := probaPred * 100
  let trigger0 := false
  let reasons0 : List String := []
  let trigger1 := if prediction = 0 then true else trigger0
  let reasons1 := if prediction = 0 then reasons0 ++ [iaReason confidence] else reasons0
  let trigger2 := if s.ph < 6.5 ∨ s.ph > 8.5 then true else trigger1
  let reasons2 := if s.ph < 6.5 ∨ s.ph > 8.5 then reasons1 ++ [phReason s.ph] else reasons1
  { triggered := trigger2, reasons := reasons2 }

/-- One turn of a conversation (`{"role": ..., "content": ...}`). -/
structure ChatMsg where
  role : String
  content : String
deriving DecidableEq

/-- The `ChatbotLLM` object state (chatbot_llm.py lines 40-51): provider
name (lower-cased by `__init__`), API key, and the gateway-held
`conversation_history`. -/
structure ChatbotLLM where
  provider : String
  api_key : String
  conversation_history : List ChatMsg
deriving DecidableEq

/-- `ChatbotLLM.__init__`: stores the lower-cased provider and the key and
sets `conversation_history = []` (`_initialize_client` stores no history;
it only builds the provider client, raising for unavailable providers —
`openrouter` is always available). -/
def chatbotInit (provider api_key : String) : ChatbotLLM :=
  { provider := provider.toLower, api_key := api_key, conversation_history := [] }

/-- `ChatbotLLM.chat` (chatbot_llm.py lines 288-316): appends the user
message to `self.conversation_history`, obtains the provider's reply
(a network result, passed here as `providerReply`), appends it as an
assistant turn, and returns it. -/
def ChatbotLLM.chat (bot : ChatbotLLM) (user_message : String)
    (providerReply : String) : String × ChatbotLLM :=
  let bot1 := { bot with
    conversation_history := bot.conversation_history ++ [ChatMsg.mk "user" user_message] }
  let response := providerReply
  let bot2 := { bot1 with
    conversation_history := bot1.conversation_history ++ [ChatMsg.mk "assistant" response] }
  (response, bot2)

/-- The Streamlit widget state around the gateway
(`create_chatbot_widget`): the caller-owned transcript
`st.session_state.chat_messages` and the current gateway object
`st.session_state.chatbot`. -/
structure WidgetState where
  chat_messages : List ChatMsg
  chatbot : Option ChatbotLLM

/-- The `🔌 Conectar` button (chatbot_llm.py lines 565-578): replaces
`st.session_state.chatbot` with a freshly constructed `ChatbotLLM`;
`st.session_state.chat_messages` is not touched. -/
def connectAction (w : WidgetState) (provider api_key : String) : WidgetState :=
  { w with chatbot := some (chatbotInit provider api_key) }

/-- The chat-input handler (chatbot_llm.py lines 744-757): appends the
user prompt to `chat_messages`, calls `chatbot.chat`, and appends the
returned reply. With no connected chatbot the input is not shown. -/
def promptAction (w : WidgetState) (prompt providerReply : String) : WidgetState :=
  match w.chatbot with
  | none => w
  | some bot =>
    let r := bot.chat prompt providerReply
    { chat_messages := w.chat_messages ++ [⟨"user", prompt⟩, ⟨"assistant", r.1⟩],
      chatbot := some r.2 }

/-- Outcome of one `requests.post` to the OpenRouter endpoint: a response
(status, optional `Retry-After` header, the extracted
`result["choices"][0]["message"]["content"]` — `none` models a payload
whose extraction raises `KeyError` — and, for statuses that make
`raise_for_status` raise, the `str(e)` of that `HTTPError`), a
`requests.exceptions.Timeout`, or another `RequestException`. -/
inductive ReqOutcome where
  | resp (status : Nat) (retryAfter : Option String) (content : Option String)
      (errDetail : String)
  | timeout
  | netErr (msg : String)

/-- `max_retries = 3` (chatbot_llm.py line 205). -/
def maxRetries : Nat := 3

/-- `base_delay = 1` second (line 206). -/
def baseDelay : Int := 1

/-- `max_delay = 60` seconds (line 207). -/
def maxDelay : Int := 60

/-- ASCII whitespace stripped by Python `int()` before parsing. -/
def pyWhitespace (c : Char) : Bool :=
  c == ' ' || c == '\t' || c == '\n' || c == '\r' || c == '\x0b' || c == '\x0c'

/-- Strip leading and trailing whitespace from a character list. -/
def pyStrip (cs : List Char) : List Char :=
  ((cs.dropWhile pyWhitespace).reverse.dropWhile pyWhitespace).reverse

/-- Decimal value of a digit string. -/
def digitsVal (cs : List Char) : Nat :=
  cs.foldl (fun n c => n * 10 + (c.toNat - 48)) 0

/-- Python `int(s)` on a header string, restricted to ASCII: optional
surrounding whitespace, optional sign, then a non-empty run of decimal
digits; anything else raises `ValueError`, modelled as `none`. -/
def pyInt (s : String) : Option Int :=
  let t := pyStrip s.data
  let (sign, digits) : Int × List Char :=
    match t with
    | '-' :: rest => (-1, rest)
    | '+' :: rest => (1, rest)
    | _ => (1, t)
  if digits ≠ [] ∧ digits.all Char.isDigit then
    some (sign * (digitsVal digits : Nat))
  else none

/-- Delay chosen before a retry (chatbot_llm.py lines 241-250):
`delay = min(base_delay * 2 ** attempt, max_delay)`, then — when a
`Retry-After` header is present and truthy — overridden by `int(header)`
when that parses (the `except: pass` keeps the computed delay when it
does not). Note the parsed hint is NOT clamped by `max_delay`. -/
def retryDelay (attempt : Nat) (retryAfter : Option String) : Int :=
  let computed : Int := min (baseDelay * 2 ^ attempt) maxDelay
  match retryAfter with
  | none => computed
  | some s =>
    if s = "" then computed
    else match pyInt s with
      | some n => n
      | none => computed

/-- Fixed message returned when the last allowed attempt is rate-limited
(chatbot_llm.py line 257). -/
def rateLimitLoopMsg : String :=
  "⏳ **Límite de requests alcanzado**\n\nPor favor espera 1 minuto e intenta de nuevo.\n\n💡 **Tip**: Los modelos gratuitos tienen límites de 20 requests/minuto."

/-- Message of the outer `except Timeout` handler (line 279). -/
def timeoutMsg : String :=
  "⏱️ **Timeout**\n\nLa respuesta tardó demasiado. Intenta de nuevo."

/-- Message of the outer `except RequestException` handler (line 281). -/
def connErrorMsg (m : String) : String :=
  "🌐 **Error de conexión**\n\n" ++ m

/-- Message of the outer `except KeyError` handler (line 283). -/
def malformedMsg : String :=
  "❌ **Error en la respuesta**\n\nLa API retornó un formato inesperado."

/-- The outer `except HTTPError` handler (lines 269-277), entered when
`raise_for_status` raised for a status that the loop body did not handle
(so never 200, and 429 only through the dead inner re-raise path). -/
def outerHttpErrorMsg (status : Nat) (errDetail : String) : String :=
  if status = 429 then
    "⏳ **Límite de requests alcanzado**\n\nEspera 1 minuto y vuelve a intentar.\n\n💡 **Tip**: Los modelos gratis tienen límites de 20 requests/minuto."
  else if status = 401 then
    "❌ **API Key inválida**\n\nVerifica tu API key en: https://openrouter.ai/keys"
  else if status = 402 then
    "💳 **Créditos insuficientes**\n\nEste modelo requiere créditos. Usa un modelo con sufijo \x27:free\x27"
  else
    "❌ **Error HTTP " ++ toString status ++ "**\n\n" ++ errDetail

/-- The retry loop of `get_response_openrouter` (chatbot_llm.py lines
209-267). `p` maps the attempt index to the outcome of that attempt's
`requests.post`; `remaining` counts loop iterations left (the Python
`for attempt in range(max_retries)`), `reqs` counts post calls made and
`sleeps` records the arguments of the `time.sleep` calls in order.
A status of 429 on a non-final attempt sleeps `retryDelay` and retries;
on the final attempt it returns `rateLimitLoopMsg`. Statuses ≥ 400 make
`raise_for_status` raise, which the outer handlers turn into a returned
message (the inner `except HTTPError` re-raises: its 429 branch is
unreachable because 429 never reaches `raise_for_status`). A non-200
status below 400 does not raise and simply falls through to the next
iteration; exhausting the loop that way returns Python `None`, modelled
as `none`. A timeout or other network exception aborts to the outer
handlers immediately (no retry). -/
def orGo (p : Nat → ReqOutcome) :
    Nat → Nat → Nat → List Int → Option String × Nat × List Int
  | 0, _, reqs, sleeps => (none, reqs, sleeps)
  | remaining + 1, attempt, reqs, sleeps =>
    match p attempt with
    | .timeout => (some timeoutMsg, reqs + 1, sleeps)
    | .netErr m => (some (connErrorMsg m), reqs + 1, sleeps)
    | .resp status retryAfter content errDetail =>
      if status = 200 then
        match content with
        | some c => (some c, reqs + 1, sleeps)
        | none => (some malformedMsg, reqs + 1, sleeps)
      else if status = 429 then
        if attempt < maxRetries - 1 then
          orGo p remaining (attempt + 1) (reqs + 1)
            (sleeps ++ [retryDelay attempt retryAfter])
        else (some rateLimitLoopMsg, reqs + 1, sleeps)
      else if 400 ≤ status then
        (some (outerHttpErrorMsg status errDetail), reqs + 1, sleeps)
      else
        orGo p remaining (attempt + 1) (reqs + 1) sleeps

/-- `ChatbotLLM.get_response_openrouter` observable behaviour: reply or
user-facing message (`none` = Python `None` fall-through), number of HTTP
requests issued, and the sleep delays in order. -/
def get_response_openrouter (p : Nat → ReqOutcome) :
    Option String × Nat × List Int :=
  orGo p maxRetries 0 0 []

/-- A 429 response carrying an optional `Retry-After` header. -/
def resp429 (h : Option String) : ReqOutcome := .resp 429 h none ""

/-- A 200 response whose payload yields `content`. -/
def resp200 (c : String) : ReqOutcome := .resp 200 none (some c) ""

/-- Unfolding of the alert block into its two independent rules. -/
theorem evaluateAlert_eq (prediction : Nat) (probaPred : ℚ) (s : Sample) :
    evaluateAlert prediction probaPred s =
      { triggered := if s.ph < 6.5 ∨ s.ph > 8.5 then true
                     else if prediction = 0 then true else false,
        reasons := (if prediction = 0 then [iaReason (probaPred * 100)] else [])
                   ++ (if s.ph < 6.5 ∨ s.ph > 8.5 then [phReason s.ph] else []) } := by
  unfold evaluateAlert
  by_cases h1 : prediction = 0 <;> by_cases h2 : s.ph < 6.5 ∨ s.ph > 8.5 <;>
    simp [h1, h2]

/-- Formatting facts for the concrete measurements used below. -/
theorem fmt1_sixPointFour : fmt1 (6.4 : ℚ) = "6.4" := by
  have h : roundHalfEven ((6.4 : ℚ) * 10) = 64 := by norm_num [roundHalfEven]
  simp [fmt1, h]
  rfl

theorem fmt1_eightPointSix : fmt1 (8.6 : ℚ) = "8.6" := by
  have h : roundHalfEven ((8.6 : ℚ) * 10) = 86 := by norm_num [roundHalfEven]
  simp [fmt1, h]
  rfl

theorem fmt1_eightyThree : fmt1 (83 : ℚ) = "83.0" := by
  have h : roundHalfEven ((83 : ℚ) * 10) = 830 := by norm_num [roundHalfEven]
  simp [fmt1, h]
  rfl

/-- Claim C4: for every prediction, confidence and sample, the alert
block sets `trigger` exactly when `reasons` is non-empty; and when the
label denotes safe (`prediction = 1`) and the pH lies in [6.5, 8.5] it
yields `trigger = False` with empty reasons. -/
theorem alert_triggered_iff_reasons :
    (∀ (prediction : Nat) (probaPred : ℚ) (s : Sample),
      ((evaluateAlert prediction probaPred s).triggered = true ↔
        (evaluateAlert prediction probaPred s).reasons ≠ []))
    ∧ (∀ (probaPred : ℚ) (s : Sample), 6.5 ≤ s.ph → s.ph ≤ 8.5 →
        evaluateAlert 1 probaPred s = ⟨false, []⟩) := by
  constructor
  · intro prediction probaPred s
    rw [evaluateAlert_eq]
    by_cases h1 : prediction = 0 <;> by_cases h2 : s.ph < 6.5 ∨ s.ph > 8.5 <;>
      simp [h1, h2]
  · intro probaPred s hlo hhi
    rw [evaluateAlert_eq]
    have h2 : ¬(s.ph < 6.5 ∨ s.ph > 8.5) := by
      push_neg
      exact ⟨hlo, hhi⟩
    simp [h2]

/-- Witness for `alert_triggered_iff_reasons` at pH 7, label safe. -/
theorem alert_triggered_iff_reasons_witness :
    evaluateAlert 1 (1/2) (mkSample 7) = ⟨false, []⟩ :=
  alert_triggered_iff_reasons.2 (1/2) (mkSample 7)
    (by norm_num [mkSample]) (by norm_num [mkSample])

/-- Claim C5: the range rule contributes its reason exactly when the pH
lies strictly outside [6.5, 8.5]; it fires at 6.4 and 8.6 but not at 6.5
or 8.5, and its reason records the measured value to one decimal. -/
theorem ph_range_rule_boundaries :
    (∀ (prediction : Nat) (probaPred : ℚ) (s : Sample),
      (evaluateAlert prediction probaPred s).reasons
        = (if prediction = 0 then [iaReason (probaPred * 100)] else [])
          ++ (if s.ph < 6.5 ∨ s.ph > 8.5 then [phReason s.ph] else []))
    ∧ evaluateAlert 1 (9/10) (mkSample 6.4) = ⟨true, ["pH fuera de norma (6.4)"]⟩
    ∧ evaluateAlert 1 (9/10) (mkSample 8.6) = ⟨true, ["pH fuera de norma (8.6)"]⟩
    ∧ evaluateAlert 1 (9/10) (mkSample 6.5) = ⟨false, []⟩
    ∧ evaluateAlert 1 (9/10) (mkSample 8.5) = ⟨false, []⟩ := by
  refine ⟨fun prediction probaPred s => by rw [evaluateAlert_eq], ?_, ?_, ?_, ?_⟩ <;>
    rw [evaluateAlert_eq] <;>
    simp [mkSample, phReason, fmt1_sixPointFour, fmt1_eightPointSix] <;>
    norm_num

/-- Claim C6: an unsafe prediction at confidence 0.83 with pH 7.0 yields
`trigger = True` and exactly the single model-rule reason, recording the
confidence percentage to one decimal place. -/
theorem ia_rule_unsafe_confidence :
    ∀ (s : Sample), s.ph = 7 →
      evaluateAlert 0 (83/100) s
        = ⟨true, ["IA detectó riesgo (Confianza: 83.0%)"]⟩ := by
  intro s h
  rw [evaluateAlert_eq, h]
  have hc : (83 : ℚ) / 100 * 100 = 83 := by norm_num
  simp [hc, iaReason, fmt1_eightyThree]
  norm_num

/-- Witness for `ia_rule_unsafe_confidence` at the default sample. -/
theorem ia_rule_unsafe_confidence_witness :
    evaluateAlert 0 (83/100) (mkSample 7)
      = ⟨true, ["IA detectó riesgo (Confianza: 83.0%)"]⟩ :=
  ia_rule_unsafe_confidence (mkSample 7) rfl

/-- Claim C3 counterexample: `ChatbotLLM.chat` DOES mutate the
gateway-held conversation history (it appends the user and assistant
turns), and reconstructing the gateway for a provider switch starts from
an empty history, discarding the turns the previous gateway held. -/
theorem chat_mutates_history :
    (((chatbotInit "openrouter" "k").chat "hola" "resp").2.conversation_history
        = [ChatMsg.mk "user" "hola", ChatMsg.mk "assistant" "resp"])
    ∧ ((chatbotInit "openrouter" "k").chat "hola" "resp").2.conversation_history
        ≠ (chatbotInit "openrouter" "k").conversation_history
    ∧ (chatbotInit "google" "k2").conversation_history = [] := by
  refine ⟨rfl, ?_, rfl⟩
  simp [chatbotInit, ChatbotLLM.chat]

/-- Claim C3 as amended: `ChatbotLLM.chat` returns the reply and appends
the user and assistant turns to the gateway-held history (so the call
does mutate the `ChatbotLLM` object); the caller-owned transcript
`st.session_state.chat_messages` is a separate list that the connect
button leaves untouched (so provider switching preserves it), and each
prompt round-trip appends the user turn and the returned reply to it. -/
theorem chat_history_amended :
    (∀ (bot : ChatbotLLM) (u r : String),
      (bot.chat u r).1 = r
      ∧ (bot.chat u r).2.conversation_history
          = bot.conversation_history ++ [ChatMsg.mk "user" u, ChatMsg.mk "assistant" r])
    ∧ (∀ (w : WidgetState) (p k : String),
        (connectAction w p k).chat_messages = w.chat_messages
        ∧ (connectAction w p k).chatbot = some (chatbotInit p k))
    ∧ (∀ (w : WidgetState) (prompt reply : String) (bot : ChatbotLLM),
        w.chatbot = some bot →
        (promptAction w prompt reply).chat_messages
          = w.chat_messages
            ++ [ChatMsg.mk "user" prompt,
                ChatMsg.mk "assistant" (bot.chat prompt reply).1]) := by
  refine ⟨fun bot u r => ⟨rfl, ?_⟩, fun w p k => ⟨rfl, rfl⟩, fun w prompt reply bot hw => ?_⟩
  · simp [ChatbotLLM.chat]
  · simp [promptAction, hw]

/-- Witness for `chat_history_amended` on a concrete widget state. -/
theorem chat_history_amended_witness :
    (promptAction ⟨[], some (chatbotInit "openrouter" "k")⟩ "hola" "re").chat_messages
      = []
        ++ [ChatMsg.mk "user" "hola",
            ChatMsg.mk "assistant" (((chatbotInit "openrouter" "k").chat "hola" "re").1)] :=
  chat_history_amended.2.2 ⟨[], some (chatbotInit "openrouter" "k")⟩ "hola" "re"
    (chatbotInit "openrouter" "k") rfl

/-- Claim C2 counterexample: a malformed persisted record is NOT treated
as "not paired" — the `Sincronizar` handler only catches
`FileNotFoundError`, so `json.load`'s decode error propagates out. -/
theorem pairing_read_malformed_raises :
    syncHandler PFile.malformed = SyncOutcome.raised "json.decoder.JSONDecodeError"
    ∧ syncHandler PFile.malformed ≠ SyncOutcome.notPaired := by
  refine ⟨rfl, ?_⟩
  simp [syncHandler]

/-- Claim C2 as amended: the dispatcher-side read returns the persisted
record's fields when a validly shaped record is present, returns the
explicit "not paired" warning when the storage has never been written
(file absent), but lets the parse error escape as a raised exception when
the persisted record is malformed. -/
theorem pairing_read_amended :
    ∀ (r : PairingRecord),
      syncHandler PFile.absent = SyncOutcome.notPaired
      ∧ syncHandler (PFile.holds (recordToJson r))
          = SyncOutcome.paired (Json.num r.chat_id) (Json.str r.name)
      ∧ syncHandler PFile.malformed
          = SyncOutcome.raised "json.decoder.JSONDecodeError" := by
  intro r
  refine ⟨rfl, ?_, rfl⟩
  simp [syncHandler, recordToJson, lookupField]

/-- Claim C8: writing a pairing record through the listener's `/start`
path and reading it back through the dispatcher's path round-trips: the
file holds exactly the serialised record, the dispatcher receives the
written `chat_id` and `name`, and decoding the stored JSON recovers a
record structurally equal to the one written. -/
theorem pairing_put_get_roundtrip :
    ∀ (u : TgUser) (chatId : Int) (sr : Except String Unit) (f : PFile),
      (startCommand u chatId (.ok ()) sr f).1
          = PFile.holds (recordToJson ⟨chatId, u.first_name, u.username⟩)
      ∧ syncHandler (startCommand u chatId (.ok ()) sr f).1
          = SyncOutcome.paired (Json.num chatId) (Json.str u.first_name)
      ∧ jsonToRecord (recordToJson ⟨chatId, u.first_name, u.username⟩)
          = some ⟨chatId, u.first_name, u.username⟩ := by
  intro u chatId sr f
  have h1 : (startCommand u chatId (.ok ()) sr f).1
      = PFile.holds (recordToJson ⟨chatId, u.first_name, u.username⟩) := by
    cases sr <;> rfl
  refine ⟨h1, ?_, ?_⟩
  · rw [h1]
    simp [syncHandler, recordToJson, lookupField]
  · rcases u with ⟨nm, un⟩
    cases un <;> rfl

/-- Claim C9: on a `/start` command whose file write succeeds, the store
holds the new record no matter how the acknowledgment goes; the event
trace shows the write strictly before the single acknowledgment attempt,
and an acknowledgment failure adds exactly one log line and nothing else
(no retry, no escaping exception — the handler always returns a trace). -/
theorem start_command_persist_before_ack :
    ∀ (u : TgUser) (chatId : Int) (e : String) (f : PFile),
      (∀ sr : Except String Unit,
        (startCommand u chatId (.ok ()) sr f).1
          = PFile.holds (recordToJson ⟨chatId, u.first_name, u.username⟩))
      ∧ (startCommand u chatId (.ok ()) (.error e) f).2
          = [BotEvent.fileWrite (recordToJson ⟨chatId, u.first_name, u.username⟩),
             BotEvent.logLine (connectedLog u.first_name chatId),
             BotEvent.ackSend chatId (ackText u.first_name),
             BotEvent.logLine (errorLog e)]
      ∧ (startCommand u chatId (.ok ()) (.ok ()) f).2
          = [BotEvent.fileWrite (recordToJson ⟨chatId, u.first_name, u.username⟩),
             BotEvent.logLine (connectedLog u.first_name chatId),
             BotEvent.ackSend chatId (ackText u.first_name)] := by
  intro u chatId e f
  exact ⟨fun sr => by cases sr <;> rfl, rfl, rfl⟩

/-- Claim C7 counterexample: with the messaging credential missing, the
dispatcher performs ZERO outbound calls (not exactly one as claimed) —
it returns the soft failure before ever reaching `requests.post`. -/
theorem dispatch_no_call_without_token :
    send_telegram_alert none "msg" 1 (PostOutcome.ok 500 "err")
        = ((false, "No hay TOKEN en .env"), 0)
    ∧ (send_telegram_alert none "msg" 1 (PostOutcome.ok 500 "err")).2 ≠ 1 := by
  exact ⟨rfl, by simp [send_telegram_alert, tokenFalsy]⟩

/-- Claim C7 as amended: the dispatcher performs at most one outbound
call — exactly one when a (truthy) credential is present, none when it is
missing; it returns `delivered = true` exactly when the credential is
present and the transport reports HTTP 200; on any other status, any
raised exception, or the missing credential it returns
`delivered = false` with a detail string (the fixed credential message,
`Error API:` plus the response body, or the exception's own message — so
the detail is empty only if the transport's exception message was empty),
and it always returns normally. -/
theorem dispatch_amended :
    ∀ (token : Option String) (message : String) (cid : Int) (o : PostOutcome),
      ((send_telegram_alert token message cid o).2 ≤ 1)
      ∧ (tokenFalsy token = false → (send_telegram_alert token message cid o).2 = 1)
      ∧ (tokenFalsy token = true →
          send_telegram_alert token message cid o = ((false, "No hay TOKEN en .env"), 0))
      ∧ ((send_telegram_alert token message cid o).1.1 = true ↔
          (tokenFalsy token = false ∧ ∃ b, o = PostOutcome.ok 200 b))
      ∧ (∀ s b, tokenFalsy token = false → o = PostOutcome.ok s b → s ≠ 200 →
          (send_telegram_alert token message cid o).1 = (false, "Error API: " ++ b))
      ∧ (∀ m, tokenFalsy token = false → o = PostOutcome.exc m →
          (send_telegram_alert token message cid o).1 = (false, m))
      ∧ ((send_telegram_alert token message cid o).1.2 = "" →
          o = PostOutcome.exc "") := by
  intro token message cid o
  have hlen : ∀ b : String, "Error API: " ++ b ≠ "" := by
    intro b h
    have h2 := congrArg String.length h
    rw [String.length_append] at h2
    have h3 : ("Error API: " : String).length = 11 := rfl
    have h4 : ("" : String).length = 0 := rfl
    omega
  refine ⟨?_, ?_, ?_, ?_, ?_, ?_, ?_⟩
  · by_cases ht : tokenFalsy token <;>
      rcases o with ⟨status, body⟩ | m <;>
      by_cases hs : True <;>
      simp [send_telegram_alert, ht] <;>
      split <;> simp
  · intro ht
    rcases o with ⟨status, body⟩ | m <;> simp [send_telegram_alert, ht] <;>
      split <;> simp
  · intro ht
    simp [send_telegram_alert, ht]
  · by_cases ht : tokenFalsy token
    · simp [send_telegram_alert, ht]
    · rcases o with ⟨status, body⟩ | m
      · by_cases hs : status = 200 <;> simp [send_telegram_alert, ht, hs]
      · simp [send_telegram_alert, ht]
  · intro s b ht ho hs
    subst ho
    simp [send_telegram_alert, ht, hs]
  · intro m ht ho
    subst ho
    simp [send_telegram_alert, ht]
  · by_cases ht : tokenFalsy token
    · simp [send_telegram_alert, ht]
    · rcases o with ⟨status, body⟩ | m
      · by_cases hs : status = 200
        · simp [send_telegram_alert, ht, hs]
        · simp only [send_telegram_alert, ht, hs, if_false, Bool.false_eq_true,
            if_neg (fun h => hs h)]
          intro h
          exact absurd h (hlen body)
      · simp [send_telegram_alert, ht]

/-- Witness for `dispatch_amended`: the simulated HTTP 500 endpoint. -/
theorem dispatch_amended_witness :
    (send_telegram_alert (some "T") "msg" 1 (PostOutcome.ok 500 "err")).1
      = (false, "Error API: " ++ "err") :=
  (dispatch_amended (some "T") "msg" 1 (PostOutcome.ok 500 "err")).2.2.2.2.1
    500 "err" rfl rfl (by omega)

/-- The retry loop never makes more requests than it has iterations
left. -/
theorem orGo_reqs_le (p : Nat → ReqOutcome) :
    ∀ (remaining attempt reqs : Nat) (sleeps : List Int),
      (orGo p remaining attempt reqs sleeps).2.1 ≤ reqs + remaining := by
  intro remaining
  induction remaining with
  | zero => intro attempt reqs sleeps; simp [orGo]
  | succ n ih =>
    intro attempt reqs sleeps
    rcases hp : p attempt with ⟨status, retryAfter, content, errDetail⟩ | _ | m <;>
      simp only [orGo, hp] <;>
      repeat' split
    all_goals first
      | exact le_trans (ih _ _ _) (by omega)
      | omega
      | simp

/-- Claim C1: a provider answering 429, 429, 200 yields the assistant
reply on the third request after sleeping 1s then 2s (the computed
`min(base_delay * 2^attempt, max_delay)` backoff) — or the
`Retry-After` hint values when those headers are present; a provider
answering 429 on all three attempts yields the fixed rate-limit-exhausted
message after exactly 3 requests; and no run of the loop ever issues more
than `max_retries = 3` requests, so there is never a 4th. -/
theorem openrouter_rate_limit_retry :
    ∀ (p : Nat → ReqOutcome) (c : String),
      (p 0 = resp429 none → p 1 = resp429 none → p 2 = resp200 c →
        get_response_openrouter p = (some c, 3, [1, 2]))
      ∧ (p 0 = resp429 (some "5") → p 1 = resp429 (some "7") → p 2 = resp200 c →
        get_response_openrouter p = (some c, 3, [5, 7]))
      ∧ (p 0 = resp429 none → p 1 = resp429 none → p 2 = resp429 none →
        get_response_openrouter p = (some rateLimitLoopMsg, 3, [1, 2]))
      ∧ (get_response_openrouter p).2.1 ≤ maxRetries := by
  intro p c
  have d0 : retryDelay 0 (some "5") = 5 := by decide
  have d1 : retryDelay 1 (some "7") = 7 := by decide
  refine ⟨?_, ?_, ?_, ?_⟩
  · intro h0 h1 h2
    simp [get_response_openrouter, maxRetries, orGo, h0, h1, h2, resp429, resp200,
      retryDelay, baseDelay, maxDelay]
  · intro h0 h1 h2
    simp [get_response_openrouter, maxRetries, orGo, h0, h1, h2, resp429, resp200,
      d0, d1]
  · intro h0 h1 h2
    simp [get_response_openrouter, maxRetries, orGo, h0, h1, h2, resp429,
      retryDelay, baseDelay, maxDelay]
  · simpa [get_response_openrouter] using orGo_reqs_le p maxRetries 0 0 []

/-- A provider that is rate-limited twice and then succeeds. -/
def exORProvider : Nat → ReqOutcome :=
  fun n => if n < 2 then resp429 none else resp200 "ok"

/-- Witness for `openrouter_rate_limit_retry`: the 429/429/200 run. -/
theorem openrouter_rate_limit_retry_witness :
    get_response_openrouter exORProvider = (some "ok", 3, [1, 2]) :=
  (openrouter_rate_limit_retry exORProvider "ok").1 rfl rfl rfl

/-- Claim C10: an absent header or one that `int()` rejects leaves the
computed exponential delay `min(base_delay * 2^attempt, max_delay)` in
force; a header that parses becomes the delay as-is — in particular
`Retry-After: 600` gives a 600s delay, strictly above the 60s
`max_delay` ceiling, which is never applied to the hint. -/
theorem retry_after_header_parsing :
    (∀ attempt : Nat,
      retryDelay attempt none = min (baseDelay * 2 ^ attempt) maxDelay)
    ∧ (∀ (attempt : Nat) (s : String), pyInt s = none →
        retryDelay attempt (some s) = min (baseDelay * 2 ^ attempt) maxDelay)
    ∧ (∀ (attempt : Nat) (s : String) (n : Int), pyInt s = some n →
        retryDelay attempt (some s) = n)
    ∧ retryDelay 0 (some "600") = 600
    ∧ maxDelay < retryDelay 0 (some "600") := by
  have hpyempty : pyInt "" = none := by decide
  refine ⟨fun attempt => rfl, ?_, ?_, by decide, by decide⟩
  · intro attempt s h
    by_cases hs : s = "" <;> simp [retryDelay, hs, h]
  · intro attempt s n h
    have hs : s ≠ "" := by
      intro he
      rw [he, hpyempty] at h
      exact Option.noConfusion h
    simp [retryDelay, hs, h]

/-- Witness for `retry_after_header_parsing`: an unparseable header keeps
the computed delay, a parseable one overrides it. -/
theorem retry_after_header_parsing_witness :
    retryDelay 1 (some "abc") = min (baseDelay * 2 ^ 1) maxDelay
    ∧ retryDelay 0 (some "90") = 90 :=
  ⟨retry_after_header_parsing.2.1 1 "abc" (by decide),
   retry_after_header_parsing.2.2.1 0 "90" 90 (by decide)⟩
